import Mathlib

/-!
Verification of the FalkorDB text-to-cypher core against its specification.

This file shallowly embeds the Rust sources (src/validator.rs, src/formatter.rs,
src/core.rs, src/main.rs, src/streaming.rs, src/schema/discovery.rs) as Lean
definitions and proves or refutes the specification claims about them.
Machine strings are modelled as Lean `String`s (lists of Unicode scalar
values, matching Rust `char` iteration); regex matches of the concrete
patterns used by the validator are unfolded into the substring tests they
denote.  External effects (the AI completion provider, the graph database,
the SSE channel) are modelled as oracle inputs; the channel is assumed to
accept every send (the claims under study concern provider/database
failures, not client disconnects).
-/

namespace TextToCypher

/-- Unicode `White_Space` test, as used by Rust `char::is_whitespace`,
`str::trim`/`trim_end` and the regex class `\s`. -/
def isRustWhitespace (c : Char) : Bool :=
  c = ' ' || c = '\t' || c = '\n' || c = '\r' ||
  c.val = 0x0B || c.val = 0x0C || c.val = 0x85 || c.val = 0xA0 ||
  c.val = 0x1680 || (0x2000 ≤ c.val && c.val ≤ 0x200A) ||
  c.val = 0x2028 || c.val = 0x2029 || c.val = 0x202F ||
  c.val = 0x205F || c.val = 0x3000

/-- Drop trailing whitespace from a character list (Rust `str::trim_end`). -/
def trimEndList (l : List Char) : List Char :=
  (l.reverse.dropWhile isRustWhitespace).reverse

/-- Drop leading and trailing whitespace (Rust `str::trim`). -/
def trimList (l : List Char) : List Char :=
  trimEndList (l.dropWhile isRustWhitespace)

/-- Rust `str::trim` on strings. -/
def rustTrim (s : String) : String := String.mk (trimList s.data)

/-- Rust `str::trim_end` on strings. -/
def rustTrimEnd (s : String) : String := String.mk (trimEndList s.data)

/-- Rust `Vec::join(sep)` / `slice::join` on strings. -/
def joinSep (sep : String) : List String → String
  | [] => ""
  | [x] => x
  | x :: xs => x ++ sep ++ joinSep sep xs

/-- Fuel-driven scan for `replaceAllList`; the fuel starts at the input
length, which suffices because every step consumes at least one character. -/
def replaceAllAux (pat rep : List Char) : Nat → List Char → List Char
  | _, [] => []
  | 0, l => l
  | fuel + 1, c :: rest =>
    if pat ≠ [] ∧ pat.isPrefixOf (c :: rest) then
      rep ++ replaceAllAux pat rep fuel ((c :: rest).drop pat.length)
    else
      c :: replaceAllAux pat rep fuel rest

/-- Replace every non-overlapping occurrence of `pat` (non-empty) by `rep`,
scanning left to right, as Rust `str::replace` does. -/
def replaceAllList (pat rep : List Char) (l : List Char) : List Char :=
  replaceAllAux pat rep l.length l

/-- Rust `str::replace` on strings. -/
def replaceAllStr (s pat rep : String) : String :=
  String.mk (replaceAllList pat.data rep.data s.data)

/-- Rust `str::replace('\n', " ")`: each newline becomes one space. -/
def mapNewlinesToSpaces (s : String) : String :=
  String.mk (s.data.map (fun c => if c = '\n' then ' ' else c))

/-- Query cleaning from core.rs / main.rs:
`query.replace('\n', " ").replace("```", "").trim().to_string()`. -/
def cleanQuery (q : String) : String :=
  rustTrim (replaceAllStr (mapNewlinesToSpaces q) "```" "")

/-- ASCII-uppercase a character list; models Rust `str::to_uppercase` and the
case-insensitive `(?i)` regex flag for the ASCII keywords involved. -/
def toUpperList (l : List Char) : List Char := l.map Char.toUpper

namespace CypherValidator

/-- Counter loop of `CypherValidator::check_balanced_parentheses` /
`check_balanced_brackets`: increment on `op`, decrement on `cl`, fail as soon
as the counter would go negative, succeed when it ends at zero. -/
def checkBalancedCount (op cl : Char) : List Char → Int → Bool
  | [], count => count == 0
  | c :: rest, count =>
    if c = op then checkBalancedCount op cl rest (count + 1)
    else if c = cl then
      if count - 1 < 0 then false else checkBalancedCount op cl rest (count - 1)
    else checkBalancedCount op cl rest count

/-- validator.rs `check_balanced_parentheses`. -/
def check_balanced_parentheses (query : String) : Bool :=
  checkBalancedCount '(' ')' query.data 0

/-- validator.rs `check_balanced_brackets`. -/
def check_balanced_brackets (query : String) : Bool :=
  checkBalancedCount '[' ']' query.data 0

/-- Step value of one character for the running open-minus-close count. -/
def charDelta (op cl c : Char) : Int :=
  if c = op then 1 else if c = cl then -1 else 0

/-- Running open-minus-close count of a character list. -/
def deltaSum (op cl : Char) (l : List Char) : Int :=
  (l.map (charDelta op cl)).sum

/-- Keywords of the `basic_cypher` pattern
`(?i)(MATCH|CREATE|MERGE|DELETE|SET|REMOVE|RETURN|WITH|UNWIND|CALL)`. -/
def basicCypherKeywords : List String :=
  ["MATCH", "CREATE", "MERGE", "DELETE", "SET", "REMOVE", "RETURN", "WITH",
   "UNWIND", "CALL"]

/-- Decidable contiguous-substring test on character lists. -/
def containsSub (needle : List Char) : List Char → Bool
  | [] => needle.isEmpty
  | c :: rest => needle.isPrefixOf (c :: rest) || containsSub needle rest

/-- Case-insensitive substring test: does the uppercased haystack contain the
(already-uppercase) needle? -/
def containsCI (hay : String) (needle : String) : Bool :=
  containsSub needle.data (toUpperList hay.data)

/-- Does the list contain `tok` immediately followed by one whitespace
character (regex `TOK\s`)?  Case handled by uppercasing the haystack. -/
def hasTokThenWS (tok : List Char) : List Char → Bool
  | [] => false
  | c :: rest =>
    (tok.isPrefixOf (c :: rest) &&
      (match (c :: rest).drop tok.length with
       | c2 :: _ => isRustWhitespace c2
       | [] => false)) || hasTokThenWS tok rest

/-- `basic_cypher` regex match. -/
def basic_cypher_match (q : String) : Bool :=
  basicCypherKeywords.any (fun kw => containsCI q kw)

/-- `dangerous_ops` regex `(?i)(DROP\s|DELETE\s)` match. -/
def dangerous_ops_match (q : String) : Bool :=
  hasTokThenWS "DROP".data (toUpperList q.data) ||
  hasTokThenWS "DELETE".data (toUpperList q.data)

/-- `match_clause` regex `(?i)MATCH\s+` match. -/
def match_clause_match (q : String) : Bool :=
  hasTokThenWS "MATCH".data (toUpperList q.data)

/-- `return_clause` regex `(?i)RETURN\s+` match. -/
def return_clause_match (q : String) : Bool :=
  hasTokThenWS "RETURN".data (toUpperList q.data)

/-- `query_upper.starts_with(kw)` for the keywords that legitimately omit
`MATCH`. -/
def starts_with_non_match (q : String) : Bool :=
  "CREATE".data.isPrefixOf (toUpperList q.data) ||
  "MERGE".data.isPrefixOf (toUpperList q.data) ||
  "CALL".data.isPrefixOf (toUpperList q.data) ||
  "UNWIND".data.isPrefixOf (toUpperList q.data)

/-- validator.rs `ValidationResult`. -/
structure ValidationResult where
  is_valid : Bool
  errors : List String
  warnings : List String
deriving Repr, DecidableEq

/-- Error message pushed when `dangerous_ops` matches. -/
def dangerousOpsError : String :=
  "Query contains potentially dangerous operations (DROP, DELETE ALL)"

/-- validator.rs `CypherValidator::validate`: trim, short-circuit on the
empty query, then accumulate errors (keywords, dangerous operations,
parentheses, brackets — in push order) and warnings (MATCH, RETURN);
`is_valid` iff no errors. -/
def validate (query : String) : ValidationResult :=
  let q := rustTrim query
  if q.data = [] then
    { is_valid := false, errors := ["Query is empty"], warnings := [] }
  else
    let errors :=
      (if basic_cypher_match q then []
       else ["Query does not contain valid Cypher keywords"]) ++
      (if dangerous_ops_match q then [dangerousOpsError] else []) ++
      (if check_balanced_parentheses q then []
       else ["Unbalanced parentheses in query"]) ++
      (if check_balanced_brackets q then []
       else ["Unbalanced brackets in query"])
    let warnings :=
      (if !match_clause_match q && !starts_with_non_match q then
        ["Query does not contain a MATCH clause"] else []) ++
      (if return_clause_match q then []
       else ["Query does not contain a RETURN clause"])
    { is_valid := errors.isEmpty, errors := errors, warnings := warnings }

end CypherValidator

namespace CypherValidator

theorem deltaSum_nil (op cl : Char) : deltaSum op cl [] = 0 := rfl

theorem deltaSum_cons (op cl x : Char) (l : List Char) :
    deltaSum op cl (x :: l) = charDelta op cl x + deltaSum op cl l := by
  simp [deltaSum]

/-- The counter loop accepts from a nonnegative start `c` exactly when no
prefix drives `c` plus the running delta negative and the total lands on
zero. -/
theorem checkBalancedCount_iff (op cl : Char) :
    ∀ (l : List Char) (c : Int), 0 ≤ c →
      (checkBalancedCount op cl l c = true ↔
        ((∀ n, 0 ≤ c + deltaSum op cl (l.take n)) ∧
          c + deltaSum op cl l = 0)) := by
  intro l
  induction l with
  | nil =>
    intro c hc
    simp only [checkBalancedCount, beq_iff_eq, List.take_nil, deltaSum_nil]
    constructor
    · intro h
      exact ⟨fun _ => by omega, by omega⟩
    · rintro ⟨_, h⟩
      omega
  | cons x rest ih =>
    intro c hc
    by_cases h1 : x = op
    · have hstep : checkBalancedCount op cl (x :: rest) c
          = checkBalancedCount op cl rest (c + 1) := by
        simp [checkBalancedCount, h1]
      have hd : charDelta op cl x = 1 := by
        simp only [charDelta, if_pos h1]
      rw [hstep, ih (c + 1) (by omega)]
      constructor
      · rintro ⟨hpre, hsum⟩
        refine ⟨fun n => ?_, ?_⟩
        · cases n with
          | zero => simp only [List.take_zero, deltaSum_nil]; omega
          | succ m =>
            have := hpre m
            rw [List.take_succ_cons, deltaSum_cons, hd]
            omega
        · rw [deltaSum_cons, hd]; omega
      · rintro ⟨hpre, hsum⟩
        refine ⟨fun n => ?_, ?_⟩
        · have := hpre (n + 1)
          rw [List.take_succ_cons, deltaSum_cons, hd] at this
          omega
        · rw [deltaSum_cons, hd] at hsum; omega
    · by_cases h2 : x = cl
      · have hd : charDelta op cl x = -1 := by
          simp only [charDelta, if_neg h1, if_pos h2]
        by_cases h3 : c < 1
        · have hstep : checkBalancedCount op cl (x :: rest) c = false := by
            simp only [checkBalancedCount]
            rw [if_neg h1, if_pos h2]
            simp [h3]
          rw [hstep]
          refine iff_of_false (by simp) ?_
          rintro ⟨hpre, _⟩
          have := hpre 1
          rw [show (x :: rest).take 1 = [x] by simp, deltaSum_cons, hd,
            deltaSum_nil] at this
          omega
        · have hstep : checkBalancedCount op cl (x :: rest) c
              = checkBalancedCount op cl rest (c - 1) := by
            simp only [checkBalancedCount]
            rw [if_neg h1, if_pos h2]
            simp [h3]
          rw [hstep, ih (c - 1) (by omega)]
          constructor
          · rintro ⟨hpre, hsum⟩
            refine ⟨fun n => ?_, ?_⟩
            · cases n with
              | zero => simp only [List.take_zero, deltaSum_nil]; omega
              | succ m =>
                have := hpre m
                rw [List.take_succ_cons, deltaSum_cons, hd]
                omega
            · rw [deltaSum_cons, hd]; omega
          · rintro ⟨hpre, hsum⟩
            refine ⟨fun n => ?_, ?_⟩
            · have := hpre (n + 1)
              rw [List.take_succ_cons, deltaSum_cons, hd] at this
              omega
            · rw [deltaSum_cons, hd] at hsum; omega
      · have hd : charDelta op cl x = 0 := by
          simp only [charDelta, if_neg h1, if_neg h2]
        have hstep : checkBalancedCount op cl (x :: rest) c
            = checkBalancedCount op cl rest c := by
          simp only [checkBalancedCount]
          rw [if_neg h1, if_neg h2]
        rw [hstep, ih c hc]
        constructor
        · rintro ⟨hpre, hsum⟩
          refine ⟨fun n => ?_, ?_⟩
          · cases n with
            | zero => simp only [List.take_zero, deltaSum_nil]; omega
            | succ m =>
              have := hpre m
              rw [List.take_succ_cons, deltaSum_cons, hd]
              omega
          · rw [deltaSum_cons, hd]; omega
        · rintro ⟨hpre, hsum⟩
          refine ⟨fun n => ?_, ?_⟩
          · have := hpre (n + 1)
            rw [List.take_succ_cons, deltaSum_cons, hd] at this
            omega
          · rw [deltaSum_cons, hd] at hsum; omega

end CypherValidator

/-- C5: for every string `s`, `check_balanced_parentheses` (and identically
`check_balanced_brackets`) returns true exactly when no prefix of `s` drives
the running open-minus-close count negative and the final count is zero —
i.e. it returns false if some prefix count goes negative or the final count
is nonzero, and true otherwise. -/
theorem claim_C5 (s : String) :
    (CypherValidator.check_balanced_parentheses s = true ↔
      ((∀ n, 0 ≤ CypherValidator.deltaSum '(' ')' (s.data.take n)) ∧
        CypherValidator.deltaSum '(' ')' s.data = 0)) ∧
    (CypherValidator.check_balanced_brackets s = true ↔
      ((∀ n, 0 ≤ CypherValidator.deltaSum '[' ']' (s.data.take n)) ∧
        CypherValidator.deltaSum '[' ']' s.data = 0)) := by
  constructor
  · have := CypherValidator.checkBalancedCount_iff '(' ')' s.data 0 le_rfl
    simpa [CypherValidator.check_balanced_parentheses] using this
  · have := CypherValidator.checkBalancedCount_iff '[' ']' s.data 0 le_rfl
    simpa [CypherValidator.check_balanced_brackets] using this

/-- C5 witness: the equivalence applied to the concrete balanced string
`"(RETURN [a])"`. -/
theorem claim_C5_witness :
    (∀ n, 0 ≤ CypherValidator.deltaSum '(' ')'
        (("(RETURN [a])" : String).data.take n)) ∧
      CypherValidator.deltaSum '(' ')' ("(RETURN [a])" : String).data = 0 :=
  (claim_C5 "(RETURN [a])").1.mp (by decide)

/-- C6 counterexample: `"MATCH (n) DELETE"` contains the destructive token
`DELETE` (even after trimming), yet `validate` finds no dangerous-operations
error and reports the query valid, because the compiled pattern
`(?i)(DROP\s|DELETE\s)` requires a whitespace character after the token. -/
theorem claim_C6_counterexample :
    CypherValidator.containsSub "DELETE".data
        (toUpperList (rustTrim "MATCH (n) DELETE").data) = true ∧
    (CypherValidator.validate "MATCH (n) DELETE").is_valid = true ∧
    CypherValidator.dangerousOpsError ∉
      (CypherValidator.validate "MATCH (n) DELETE").errors := by
  exact ⟨by decide, by decide, by decide⟩

/-- C6 (amended): for every query whose trimmed form contains `DROP` or
`DELETE` (case-insensitively) immediately followed by a whitespace
character, `validate` reports the dangerous-operations error and
`is_valid = false`; the reported error message contains the text
"dangerous operations". -/
theorem claim_C6_amended (q : String)
    (h : CypherValidator.dangerous_ops_match (rustTrim q) = true) :
    CypherValidator.dangerousOpsError ∈ (CypherValidator.validate q).errors ∧
    (CypherValidator.validate q).is_valid = false ∧
    CypherValidator.containsSub "dangerous operations".data
      CypherValidator.dangerousOpsError.data = true := by
  have hne : ¬((rustTrim q).data = []) := by
    intro h0
    rw [CypherValidator.dangerous_ops_match] at h
    rw [h0] at h
    simp [toUpperList, CypherValidator.hasTokThenWS] at h
  have hmem : CypherValidator.dangerousOpsError ∈
      (CypherValidator.validate q).errors := by
    simp only [CypherValidator.validate, hne, if_false, ite_false]
    simp [h]
  refine ⟨hmem, ?_, by decide⟩
  have hnil : (CypherValidator.validate q).errors ≠ [] :=
    List.ne_nil_of_mem hmem
  simp only [CypherValidator.validate, hne, if_false, ite_false] at hnil ⊢
  simpa using hnil

/-- C6 witness: the amended claim applied to the spec's concrete scenario
query `"MATCH (n) DELETE n"`. -/
theorem claim_C6_witness :
    CypherValidator.dangerousOpsError ∈
      (CypherValidator.validate "MATCH (n) DELETE n").errors ∧
    (CypherValidator.validate "MATCH (n) DELETE n").is_valid = false :=
  ⟨(claim_C6_amended "MATCH (n) DELETE n" (by decide)).1,
   (claim_C6_amended "MATCH (n) DELETE n" (by decide)).2.1⟩

/-! ## Result formatter (formatter.rs) -/

mutual
/-- formatter.rs `FalkorValue`, restricted to the variants the formatter
renders structurally.  `F64` is omitted (Rust float `Display` text is not
shallowly embeddable); node and edge property maps (`HashMap`) are modelled
as property lists in iteration order.  A path carries its node list
(labels, properties) and relationship list (type, properties).  The inner
lists are mutual inductives so that the formatter is structurally
recursive. -/
inductive FValue where
  | bool (b : Bool)
  | i64 (i : Int)
  | str (s : String)
  | node (labels : List String) (props : FProps)
  | edge (relType : String) (props : FProps)
  | path (nodes : FNodes) (rels : FRels)
  | arr (elems : FList)

/-- List of array elements. -/
inductive FList where
  | nil
  | cons (hd : FValue) (tl : FList)

/-- Property list of a node or edge: key/value pairs in iteration order. -/
inductive FProps where
  | nil
  | cons (key : String) (val : FValue) (tl : FProps)

/-- Node list of a path: labels and properties per node. -/
inductive FNodes where
  | nil
  | cons (labels : List String) (props : FProps) (tl : FNodes)

/-- Relationship list of a path: type and properties per relationship. -/
inductive FRels where
  | nil
  | cons (relType : String) (props : FProps) (tl : FRels)
end

/-- Node rendering from `format_falkor_value`: label segment omitted when
there are no labels, property-brace segment omitted when there are no
properties (`propStrings` are the already-rendered `k: v` pairs). -/
def nodeText (labels : List String) (propStrings : List String) : String :=
  let ls := if labels.isEmpty then "" else ":" ++ joinSep ":" labels
  let ps := if propStrings.isEmpty then ""
            else " \x7b" ++ joinSep ", " propStrings ++ "\x7d"
  "(" ++ ls ++ ps ++ ")"

/-- Edge rendering from `format_falkor_value`. -/
def edgeText (relType : String) (propStrings : List String) : String :=
  let ps := if propStrings.isEmpty then ""
            else " \x7b" ++ joinSep ", " propStrings ++ "\x7d"
  "-[:" ++ relType ++ ps ++ "]-"

mutual
/-- formatter.rs `format_falkor_value`: booleans and integers print their
literal text, strings are quoted, nodes/edges/paths/arrays render
structurally. -/
def format_falkor_value : FValue → String
  | .bool b => if b then "true" else "false"
  | .i64 i => toString i
  | .str s => "\"" ++ s ++ "\""
  | .node labels props => nodeText labels (formatPropStrings props)
  | .edge t props => edgeText t (formatPropStrings props)
  | .path nodes rels => formatPathStart nodes (formatRelTexts rels)
  | .arr elems => "[" ++ joinSep ", " (formatElems elems) ++ "]"

/-- Renders array elements in order. -/
def formatElems : FList → List String
  | .nil => []
  | .cons v tl => format_falkor_value v :: formatElems tl

/-- Renders `k: v` property strings in order. -/
def formatPropStrings : FProps → List String
  | .nil => []
  | .cons k v tl => (k ++ ": " ++ format_falkor_value v) :: formatPropStrings tl

/-- Renders the relationship texts of a path in order. -/
def formatRelTexts : FRels → List String
  | .nil => []
  | .cons t props tl => edgeText t (formatPropStrings props) :: formatRelTexts tl

/-- Path rendering: the first node, then the interleaved rest. -/
def formatPathStart : FNodes → List String → String
  | .nil, _ => ""
  | .cons labels props ns, relTexts =>
      nodeText labels (formatPropStrings props) ++ formatPathRest ns relTexts

/-- After the first node, each node is preceded by its relationship text
when one exists (`path.relationships.get(i-1)`). -/
def formatPathRest : FNodes → List String → String
  | .nil, _ => ""
  | .cons labels props ns, [] =>
      nodeText labels (formatPropStrings props) ++ formatPathRest ns []
  | .cons labels props ns, e :: es =>
      e ++ nodeText labels (formatPropStrings props) ++ formatPathRest ns es
end

/-- The rendered fields of one record. -/
def formatValues (record : List FValue) : List String :=
  record.map format_falkor_value

/-- Inline rendering of one record, shared by the single-record branch and
the loop body of `format_query_records`: a single field renders as the bare
value, several fields as `[v1, v2, …]`. -/
def recordInlineText (record : List FValue) : String :=
  match record with
  | [v] => format_falkor_value v
  | r => "[" ++ joinSep ", " (formatValues r) ++ "]"

/-- Sequential accumulation of the `write!`/`writeln!` loop. -/
def concatStrings : List String → String
  | [] => ""
  | s :: rest => s ++ concatStrings rest

/-- formatter.rs `format_query_records`: no records yields the fixed text,
one record renders inline, several records produce `"N. "`-prefixed lines
(`writeln!` adds one newline after each) and the result is `trim_end`ed. -/
def format_query_records (records : List (List FValue)) : String :=
  match records with
  | [] => "No results returned."
  | [record] => recordInlineText record
  | _ =>
    rustTrimEnd (concatStrings (records.enum.map
      (fun p => toString (p.1 + 1) ++ ". " ++ recordInlineText p.2 ++ "\n")))

/-- Claim-side reading of the multi-record case: one line per record with a
1-based `"N. "` index prefix. -/
def numberedLines (records : List (List FValue)) : List String :=
  records.enum.map (fun p => toString (p.1 + 1) ++ ". " ++ recordInlineText p.2)

theorem trimEndList_append_congr (a : List Char) {x y : List Char}
    (h : trimEndList x = trimEndList y) :
    trimEndList (a ++ x) = trimEndList (a ++ y) := by
  have h2 : x.reverse.dropWhile isRustWhitespace
      = y.reverse.dropWhile isRustWhitespace := by
    have := congrArg List.reverse h
    simpa [trimEndList] using this
  simp only [trimEndList, List.reverse_append, List.dropWhile_append, h2]

theorem rustTrimEnd_append_congr (a : String) {x y : String}
    (h : rustTrimEnd x = rustTrimEnd y) :
    rustTrimEnd (a ++ x) = rustTrimEnd (a ++ y) := by
  have hl : trimEndList x.data = trimEndList y.data := by
    have := congrArg String.data h
    simpa [rustTrimEnd] using this
  simp only [rustTrimEnd, String.data_append]
  exact congrArg String.mk (trimEndList_append_congr a.data hl)

theorem rustTrimEnd_append_newline (s : String) :
    rustTrimEnd (s ++ "\n") = rustTrimEnd s := by
  simp only [rustTrimEnd, String.data_append]
  apply congrArg String.mk
  simp [trimEndList, List.dropWhile_cons, isRustWhitespace]

theorem rustTrimEnd_writeln_eq_joinSep (lines : List String) :
    rustTrimEnd (concatStrings (lines.map (· ++ "\n")))
      = rustTrimEnd (joinSep "\n" lines) := by
  induction lines with
  | nil => rfl
  | cons l rest ih =>
    cases rest with
    | nil =>
      show rustTrimEnd ((l ++ "\n") ++ concatStrings []) = rustTrimEnd l
      have h0 : (l ++ "\n") ++ concatStrings [] = l ++ "\n" := by
        simp [concatStrings]
      rw [h0, rustTrimEnd_append_newline]
    | cons l2 rest2 =>
      show rustTrimEnd ((l ++ "\n") ++ concatStrings ((l2 :: rest2).map (· ++ "\n")))
        = rustTrimEnd (l ++ "\n" ++ joinSep "\n" (l2 :: rest2))
      rw [show l ++ "\n" ++ joinSep "\n" (l2 :: rest2)
            = (l ++ "\n") ++ joinSep "\n" (l2 :: rest2) from rfl]
      exact rustTrimEnd_append_congr (l ++ "\n") ih

/-- C4: `format_query_records` yields the fixed text on zero records, the
bare value for one single-field record, `[v1, v2, …]` for one multi-field
record, and for several records the newline-join of the 1-based
`"N. "`-prefixed per-record lines with trailing whitespace trimmed; on
`[[1],[2]]` it produces exactly `"1. 1\n2. 2"`. -/
theorem claim_C4 (records : List (List FValue)) :
    (records = [] → format_query_records records = "No results returned.") ∧
    (∀ v, records = [[v]] →
      format_query_records records = format_falkor_value v) ∧
    (∀ r, records = [r] → 2 ≤ r.length →
      format_query_records records
        = "[" ++ joinSep ", " (formatValues r) ++ "]") ∧
    (2 ≤ records.length →
      format_query_records records
        = rustTrimEnd (joinSep "\n" (numberedLines records))) ∧
    format_query_records [[.i64 1], [.i64 2]] = "1. 1\n2. 2" := by
  refine ⟨?_, ?_, ?_, ?_, by decide⟩
  · rintro rfl
    rfl
  · rintro v rfl
    rfl
  · rintro r rfl hr
    match r, hr with
    | a :: b :: t, _ => rfl
  · intro hlen
    match records, hlen with
    | a :: b :: t, _ =>
      show rustTrimEnd (concatStrings ((a :: b :: t).enum.map
          (fun p => toString (p.1 + 1) ++ ". " ++ recordInlineText p.2 ++ "\n")))
        = rustTrimEnd (joinSep "\n" (numberedLines (a :: b :: t)))
      rw [show ((a :: b :: t).enum.map
            (fun p => toString (p.1 + 1) ++ ". " ++ recordInlineText p.2 ++ "\n"))
          = ((numberedLines (a :: b :: t)).map (· ++ "\n")) by
        simp [numberedLines, List.map_map]]
      exact rustTrimEnd_writeln_eq_joinSep _

/-- C4 witness: the zero-record case and the multi-record case at the
spec's concrete example `[[1],[2]]`. -/
theorem claim_C4_witness :
    format_query_records [] = "No results returned." ∧
    format_query_records [[.i64 1], [.i64 2]]
      = rustTrimEnd (joinSep "\n" (numberedLines [[.i64 1], [.i64 2]])) :=
  ⟨(claim_C4 []).1 rfl,
   (claim_C4 [[.i64 1], [.i64 2]]).2.2.2.1 (by decide)⟩

/-! ## Query synthesis post-processing (core.rs `generate_cypher_query`) -/

/-- core.rs `generate_cypher_query` after the provider call, as a function
of the chat outcome: `.error e` is a failed `exec_chat` call;
`.ok firstText` carries `chat_response.into_first_text()`, defaulted to
`"NO ANSWER"`.  An empty or sentinel response is the empty-response
failure; otherwise the response is cleaned (newlines to spaces, triple
backticks removed, trimmed) and validated, failing on an invalid query. -/
def core_generate_cypher_query (chatCall : Except String (Option String)) :
    Except String String :=
  match chatCall with
  | .error e => .error ("Chat request failed: " ++ e)
  | .ok firstText =>
    let query := firstText.getD "NO ANSWER"
    if rustTrim query = "" ∨ rustTrim query = "NO ANSWER" then
      .error "No valid query was generated"
    else
      let clean_query := cleanQuery query
      let validation := CypherValidator.validate clean_query
      if validation.is_valid then .ok clean_query
      else .error ("Query validation failed: " ++ joinSep "; " validation.errors)

theorem validationMsg_ne (s : String) :
    "Query validation failed: " ++ s ≠ "No valid query was generated" := by
  intro h
  have hd := congrArg String.data h
  rw [String.data_append] at hd
  have hh := congrArg List.head? hd
  have hlit1 : (("Query validation failed: " : String).data ++ s.data).head?
      = some 'Q' := by
    cases hc : ("Query validation failed: " : String).data with
    | nil =>
      have : ("Query validation failed: " : String).data.head? = some 'Q' := by
        decide
      rw [hc] at this
      simp at this
    | cons a t =>
      have : ("Query validation failed: " : String).data.head? = some 'Q' := by
        decide
      rw [hc] at this
      simpa using this
  have hlit2 : (("No valid query was generated" : String).data).head?
      = some 'N' := by decide
  rw [hlit1, hlit2] at hh
  exact absurd hh (by decide)

/-- C7 counterexample: the raw response `"hello"` is neither empty nor the
sentinel after trimming, yet `generate_cypher_query` does not return the
cleaned response — it reports a validation failure. -/
theorem claim_C7_counterexample :
    rustTrim "hello" ≠ "" ∧ rustTrim "hello" ≠ "NO ANSWER" ∧
    core_generate_cypher_query (.ok (some "hello"))
      ≠ .ok (cleanQuery "hello") ∧
    core_generate_cypher_query (.ok (some "hello"))
      = .error
        "Query validation failed: Query does not contain valid Cypher keywords" := by
  have he : core_generate_cypher_query (.ok (some "hello"))
      = .error
        "Query validation failed: Query does not contain valid Cypher keywords" :=
    rfl
  refine ⟨by decide, by decide, ?_, he⟩
  intro h
  rw [he] at h
  exact Except.noConfusion h

/-- C7 (amended): the synthesis post-processing reports the empty-response
failure exactly when the trimmed raw response is empty or the sentinel
`"NO ANSWER"`; in every other case it computes the cleaned response
(newlines to single spaces, triple-backtick fences removed, trimmed) and
returns it when it passes the Cypher validator, otherwise it reports a
validation failure distinct from the empty-response failure. -/
theorem claim_C7_amended (raw : String) :
    (core_generate_cypher_query (.ok (some raw))
        = .error "No valid query was generated"
      ↔ (rustTrim raw = "" ∨ rustTrim raw = "NO ANSWER")) ∧
    (¬(rustTrim raw = "" ∨ rustTrim raw = "NO ANSWER") →
      ((CypherValidator.validate (cleanQuery raw)).is_valid = true →
        core_generate_cypher_query (.ok (some raw)) = .ok (cleanQuery raw)) ∧
      ((CypherValidator.validate (cleanQuery raw)).is_valid = false →
        core_generate_cypher_query (.ok (some raw))
            = .error ("Query validation failed: "
              ++ joinSep "; " (CypherValidator.validate (cleanQuery raw)).errors) ∧
          "Query validation failed: "
              ++ joinSep "; " (CypherValidator.validate (cleanQuery raw)).errors
            ≠ "No valid query was generated")) := by
  have hbody : core_generate_cypher_query (.ok (some raw))
      = if rustTrim raw = "" ∨ rustTrim raw = "NO ANSWER" then
          Except.error "No valid query was generated"
        else if (CypherValidator.validate (cleanQuery raw)).is_valid then
          Except.ok (cleanQuery raw)
        else
          Except.error ("Query validation failed: "
            ++ joinSep "; " (CypherValidator.validate (cleanQuery raw)).errors) :=
    rfl
  refine ⟨⟨fun h => ?_, fun h => ?_⟩,
    fun h => ⟨fun hv => ?_, fun hv => ⟨?_, validationMsg_ne _⟩⟩⟩
  · by_contra hc
    rw [hbody, if_neg hc] at h
    by_cases hv : (CypherValidator.validate (cleanQuery raw)).is_valid
    · rw [if_pos hv] at h
      exact Except.noConfusion h
    · rw [if_neg hv] at h
      injection h with h2
      exact validationMsg_ne _ h2
  · rw [hbody, if_pos h]
  · rw [hbody, if_neg h, if_pos hv]
  · rw [hbody, if_neg h, if_neg (by simp [hv])]

/-- C7 witness: the amended claim at the valid concrete response
`"MATCH (n) RETURN n"` and at the sentinel response. -/
theorem claim_C7_witness :
    core_generate_cypher_query (.ok (some "MATCH (n) RETURN n"))
      = .ok (cleanQuery "MATCH (n) RETURN n") ∧
    core_generate_cypher_query (.ok (some "NO ANSWER"))
      = .error "No valid query was generated" :=
  ⟨((claim_C7_amended "MATCH (n) RETURN n").2 (by decide)).1 (by decide),
   (claim_C7_amended "NO ANSWER").1.mpr (by decide)⟩

/-! ## Schema discovery (schema/discovery.rs) -/

/-- schema/attribute.rs `AttributeType`. -/
inductive AttributeType where
  | String | Number | Integer | Float | Boolean | DateTime | List | Map
  | Vector | Point
deriving DecidableEq, Repr

/-- schema/attribute.rs `Attribute`. -/
structure Attribute where
  name : String
  attrType : AttributeType
  count : Int
  unique : Bool
  required : Bool
  examples : Option (List String)
deriving DecidableEq, Repr

/-- schema/entity.rs `Entity`. -/
structure Entity where
  label : String
  attributes : List Attribute
  description : Option String
deriving DecidableEq, Repr

/-- schema/relation.rs `Relation`. -/
structure Relation where
  label : String
  source : String
  target : String
  attributes : List Attribute
deriving DecidableEq, Repr

/-- schema/discovery.rs `Schema`. -/
structure Schema where
  entities : List Entity
  relations : List Relation
deriving DecidableEq, Repr

/-- Oracle for the graph-database introspection calls that
`Schema::discover_from_graph` makes: the label listings, the per-label
attribute aggregation (the outcome of `collect_entity_attributes` /
`collect_relationship_attributes` sampling), and the per-pair edge probe
`MATCH (s:S)-[a:L]->(t:T) return a limit 1` returning at least one row.
The claims concern a successful discovery, so the oracle does not fail. -/
structure GraphOracle where
  entityLabels : List String
  relationshipLabels : List String
  entityAttrs : String → List Attribute
  relAttrs : String → List Attribute
  edgeExists : String → String → String → Bool

/-- schema/discovery.rs `Schema::discover_from_graph`: build one `Entity`
per entity label, aggregate attributes per relationship label, then for
every relationship label and every source × target entity pair append a
`Relation` exactly when the probe query returns a row. -/
def Schema.discover_from_graph (g : GraphOracle) : Schema :=
  let entities := g.entityLabels.map (fun l => Entity.mk l (g.entityAttrs l) none)
  let relationship_attributes :=
    g.relationshipLabels.map (fun l => (l, g.relAttrs l))
  let relations :=
    relationship_attributes.flatMap (fun la =>
      entities.flatMap (fun s =>
        entities.filterMap (fun t =>
          if g.edgeExists la.1 s.label t.label then
            some (Relation.mk la.1 s.label t.label la.2)
          else none)))
  ⟨entities, relations⟩

/-- C8: every `Relation` of a discovered `Schema` is materialized only for
a relationship label and source/target entity labels whose edge probe
returned at least one edge, and it carries exactly the attributes
aggregated for its relationship label; hence no `Relation` exists for a
pair whose probe returned no edge. -/
theorem claim_C8 (g : GraphOracle) (r : Relation)
    (hr : r ∈ (Schema.discover_from_graph g).relations) :
    g.edgeExists r.label r.source r.target = true ∧
    r.attributes = g.relAttrs r.label ∧
    r.label ∈ g.relationshipLabels ∧
    r.source ∈ g.entityLabels ∧
    r.target ∈ g.entityLabels := by
  simp only [Schema.discover_from_graph, List.mem_flatMap, List.mem_filterMap,
    List.mem_map] at hr
  obtain ⟨la, ⟨l, hl, rfl⟩, s, ⟨ls, hls, rfl⟩, t, ⟨lt, hlt, rfl⟩, hite⟩ := hr
  by_cases hc : g.edgeExists l ls lt
  · rw [show (Entity.mk ls (g.entityAttrs ls) none).label = ls from rfl,
      show (Entity.mk lt (g.entityAttrs lt) none).label = lt from rfl] at hite
    rw [if_pos hc] at hite
    obtain rfl := Option.some.inj hite
    exact ⟨hc, rfl, hl, hls, hlt⟩
  · rw [show (Entity.mk ls (g.entityAttrs ls) none).label = ls from rfl,
      show (Entity.mk lt (g.entityAttrs lt) none).label = lt from rfl] at hite
    rw [if_neg hc] at hite
    exact Option.noConfusion hite

/-- Concrete introspection oracle for the C8 witness. -/
def witnessOracle : GraphOracle where
  entityLabels := ["Person", "City"]
  relationshipLabels := ["KNOWS", "LIVES_IN"]
  entityAttrs := fun l =>
    if l = "Person" then [⟨"name", AttributeType.String, 5, false, false, none⟩]
    else []
  relAttrs := fun l =>
    if l = "KNOWS" then [⟨"since", AttributeType.Integer, 2, false, false, none⟩]
    else []
  edgeExists := fun rel s t => rel = "KNOWS" && s = "Person" && t = "Person"

/-- C8 witness: the invariant applied to the one relation discovered from
the concrete oracle. -/
theorem claim_C8_witness :
    witnessOracle.edgeExists "KNOWS" "Person" "Person" = true ∧
    ("KNOWS" : String) ∈ witnessOracle.relationshipLabels :=
  ⟨(claim_C8 witnessOracle
      (Relation.mk "KNOWS" "Person" "Person"
        [⟨"since", AttributeType.Integer, 2, false, false, none⟩])
      (by decide)).1,
   (claim_C8 witnessOracle
      (Relation.mk "KNOWS" "Person" "Person"
        [⟨"since", AttributeType.Integer, 2, false, false, none⟩])
      (by decide)).2.2.1⟩

/-! ## Schema cache -/

/-- Modelled from the spec: the process-wide schema cache is provided by
the external `moka` crate (`Cache<String, String>` in main.rs `AppConfig`),
whose implementation is outside this repository; its key-value semantics —
`get`, atomic-replace `insert`, explicit `invalidate` — are modelled from
the specification's Schema Cache contract (§4.2).  Bounded oldest-unused
eviction is not modelled. -/
abbrev SchemaCache := List (String × String)

/-- Cache lookup (`cache.get(graph_name)`). -/
def cacheGet (c : SchemaCache) (g : String) : Option String :=
  (c.find? (fun kv => kv.1 == g)).map (fun kv => kv.2)

/-- Cache write (`cache.insert(graph_name, schema)`): atomic replacement. -/
def cacheInsert (c : SchemaCache) (g s : String) : SchemaCache :=
  (g, s) :: c.filter (fun kv => kv.1 != g)

/-- Cache invalidation (`cache.invalidate(graph_name)`). -/
def cacheInvalidate (c : SchemaCache) (g : String) : SchemaCache :=
  c.filter (fun kv => kv.1 != g)

/-- main.rs `process_clear_schema_cache`: invalidate the graph's entry. -/
def process_clear_schema_cache (c : SchemaCache) (graph_name : String) :
    SchemaCache :=
  cacheInvalidate c graph_name

/-- main.rs `get_or_discover_schema`, cache side: on hit the cached schema
is used, on miss discovery runs (`.ok` its serialized result, `.error` a
serialization failure); a successful schema is (re)inserted.  Returns the
schema, the new cache and whether discovery ran. -/
def get_or_discover_schema_cached (c : SchemaCache) (graph_name : String)
    (discovered : Except Unit String) : Option String × SchemaCache × Bool :=
  match cacheGet c graph_name with
  | some schema => (some schema, cacheInsert c graph_name schema, false)
  | none =>
    match discovered with
    | .ok schema => (some schema, cacheInsert c graph_name schema, true)
    | .error _ => (none, c, true)

theorem find_key_filter (c : SchemaCache) (g g2 : String) (h : g ≠ g2) :
    (c.filter (fun kv => kv.1 != g2)).find? (fun kv => kv.1 == g)
      = c.find? (fun kv => kv.1 == g) := by
  induction c with
  | nil => rfl
  | cons kv tl ih =>
    by_cases hk : kv.1 = g2
    · have h1 : (kv.1 != g2) = false := by simp [hk]
      have h2 : (kv.1 == g) = false :=
        beq_eq_false_iff_ne.mpr (by rw [hk]; exact fun he => h he.symm)
      simp [List.filter_cons, h1, List.find?_cons, h2, ih]
    · have h1 : (kv.1 != g2) = true := by simp [hk]
      by_cases hgk : kv.1 = g
      · have h2 : (kv.1 == g) = true := beq_iff_eq.mpr hgk
        simp [List.filter_cons, h1, List.find?_cons, h2]
      · have h2 : (kv.1 == g) = false := beq_eq_false_iff_ne.mpr hgk
        simp [List.filter_cons, h1, List.find?_cons, h2, ih]

theorem find_key_invalidate (c : SchemaCache) (g : String) :
    (c.filter (fun kv => kv.1 != g)).find? (fun kv => kv.1 == g) = none := by
  induction c with
  | nil => rfl
  | cons kv tl ih =>
    by_cases hk : kv.1 = g
    · have h1 : (kv.1 != g) = false := by simp [hk]
      simp [List.filter_cons, h1, ih]
    · have h1 : (kv.1 != g) = true := by simp [hk]
      have h2 : (kv.1 == g) = false := beq_eq_false_iff_ne.mpr hk
      simp [List.filter_cons, h1, List.find?_cons, h2, ih]

/-- C9: schema-cache round trip — after an insert for graph `g` a get for
`g` returns the inserted schema, inserts for other graphs do not disturb
it, after an invalidation of `g` a get returns nothing (other graphs
untouched), and `get_or_discover_schema` runs discovery exactly on a cache
miss — in particular always on the invalidated graph. -/
theorem claim_C9 (c : SchemaCache) (g g2 s : String) (d : Except Unit String) :
    cacheGet (cacheInsert c g s) g = some s ∧
    (g ≠ g2 → cacheGet (cacheInsert c g2 s) g = cacheGet c g) ∧
    cacheGet (cacheInvalidate c g) g = none ∧
    (g2 ≠ g → cacheGet (cacheInvalidate c g) g2 = cacheGet c g2) ∧
    (get_or_discover_schema_cached c g d).2.2 = (cacheGet c g).isNone ∧
    (get_or_discover_schema_cached (process_clear_schema_cache c g) g d).2.2
      = true := by
  refine ⟨?_, ?_, ?_, ?_, ?_, ?_⟩
  · simp [cacheGet, cacheInsert, List.find?_cons]
  · intro hne
    have hg : (g2 == g) = false :=
      beq_eq_false_iff_ne.mpr (fun he => hne he.symm)
    simp [cacheGet, cacheInsert, List.find?_cons, hg,
      find_key_filter c g g2 hne]
  · simp [cacheGet, cacheInvalidate, find_key_invalidate]
  · intro hne
    simp [cacheGet, cacheInvalidate, find_key_filter c g2 g hne]
  · cases hc : cacheGet c g with
    | some v => simp [get_or_discover_schema_cached, hc]
    | none =>
      cases d with
      | ok v => simp [get_or_discover_schema_cached, hc]
      | error e => simp [get_or_discover_schema_cached, hc]
  · have hmiss : cacheGet (process_clear_schema_cache c g) g = none := by
      simp [cacheGet, process_clear_schema_cache, cacheInvalidate,
        find_key_invalidate]
    cases d with
    | ok v => simp [get_or_discover_schema_cached, hmiss]
    | error e => simp [get_or_discover_schema_cached, hmiss]

/-- C9 witness: the round trip on a concrete cache. -/
theorem claim_C9_witness :
    cacheGet (cacheInsert [] "g" "s0") "g" = some "s0" ∧
    cacheGet (cacheInvalidate [("g", "s0")] "g") "g" = none ∧
    (get_or_discover_schema_cached
        (process_clear_schema_cache [("g", "s0")] "g") "g"
        (Except.ok "s1")).2.2 = true ∧
    cacheGet (cacheInsert [("g", "s0")] "h" "s1") "g"
      = cacheGet [("g", "s0")] "g" :=
  ⟨(claim_C9 [] "g" "h" "s0" (Except.ok "s1")).1,
   (claim_C9 [("g", "s0")] "g" "h" "s0" (Except.ok "s1")).2.2.1,
   (claim_C9 [("g", "s0")] "g" "h" "s1" (Except.ok "s1")).2.2.2.2.2,
   (claim_C9 [("g", "s0")] "g" "h" "s1" (Except.ok "s1")).2.1 (by decide)⟩

/-! ## Query-result sanitization (main.rs `sanitize_query_result`) -/

/-- main.rs constant bounding embedded property text. -/
def QUERY_RESULT_MAX_PROPERTY_LENGTH : Nat := 100

mutual
/-- The `serde_json::Value` tree of a parsed query result.  Numbers are
modelled as integers (float text is out of scope); arrays and objects are
mutual inductives so that the traversal is structurally recursive, with
object fields in order. -/
inductive JValue where
  | null
  | jbool (b : Bool)
  | jnum (n : Int)
  | jstr (s : String)
  | jarr (elems : JArr)
  | jobj (fields : JObj)

/-- JSON array elements. -/
inductive JArr where
  | nil
  | cons (hd : JValue) (tl : JArr)

/-- JSON object fields. -/
inductive JObj where
  | nil
  | cons (key : String) (val : JValue) (tl : JObj)
end

/-- First `n` characters of a string. -/
def takeChars (n : Nat) (s : String) : String := String.mk (s.data.take n)

/-- The per-string mutation of `sanitize_query_result`: a string of more
than `max_len` characters becomes its first `max_len` characters followed
by `"..."`; shorter strings are unchanged. -/
def truncStrFun (max_len : Nat) (s : String) : String :=
  if s.length > max_len then takeChars max_len s ++ "..." else s

mutual
/-- The stack-based in-place traversal of `sanitize_query_result`'s JSON
branch, as a recursive map: every string value at any nesting depth is
truncated, arrays and objects are traversed, all other values are left
unchanged. -/
def sanitizeJValue (max_len : Nat) : JValue → JValue
  | .jstr s => .jstr (truncStrFun max_len s)
  | .jarr elems => .jarr (sanitizeJArr max_len elems)
  | .jobj fields => .jobj (sanitizeJObj max_len fields)
  | v => v

/-- Traverses array elements. -/
def sanitizeJArr (max_len : Nat) : JArr → JArr
  | .nil => .nil
  | .cons v tl => .cons (sanitizeJValue max_len v) (sanitizeJArr max_len tl)

/-- Traverses object field values. -/
def sanitizeJObj (max_len : Nat) : JObj → JObj
  | .nil => .nil
  | .cons k v tl => .cons k (sanitizeJValue max_len v) (sanitizeJObj max_len tl)
end

mutual
/-- All string values of a JSON tree, in traversal order. -/
def strLeaves : JValue → List String
  | .jstr s => [s]
  | .jarr elems => strLeavesArr elems
  | .jobj fields => strLeavesObj fields
  | _ => []

/-- String values under an array. -/
def strLeavesArr : JArr → List String
  | .nil => []
  | .cons v tl => strLeaves v ++ strLeavesArr tl

/-- String values under an object. -/
def strLeavesObj : JObj → List String
  | .nil => []
  | .cons _ v tl => strLeaves v ++ strLeavesObj tl
end

mutual
/-- A JSON tree with every string value blanked: the sanitizer preserves
this skeleton, so non-string values and the structure are unchanged. -/
def jshape : JValue → JValue
  | .jstr _ => .jstr ""
  | .jarr elems => .jarr (jshapeArr elems)
  | .jobj fields => .jobj (jshapeObj fields)
  | v => v

/-- Skeleton of array elements. -/
def jshapeArr : JArr → JArr
  | .nil => .nil
  | .cons v tl => .cons (jshape v) (jshapeArr tl)

/-- Skeleton of object fields. -/
def jshapeObj : JObj → JObj
  | .nil => .nil
  | .cons k v tl => .cons k (jshape v) (jshapeObj tl)
end

/-- Hex digit for JSON control-character escapes. -/
def hexDigit (n : Nat) : Char :=
  if n < 10 then Char.ofNat ('0'.toNat + n) else Char.ofNat ('a'.toNat + n - 10)

/-- JSON string escaping of one character, following serde_json's compact
output (the re-serialization step of `sanitize_query_result` is performed
by `serde_json::to_string`, external to this repository). -/
def escapeJsonChar (c : Char) : List Char :=
  if c = '"' then ['\\', '"']
  else if c = '\\' then ['\\', '\\']
  else if c = '\n' then ['\\', 'n']
  else if c = '\r' then ['\\', 'r']
  else if c = '\t' then ['\\', 't']
  else if c.toNat = 8 then ['\\', 'b']
  else if c.toNat = 12 then ['\\', 'f']
  else if c.toNat < 0x20 then
    ['\\', 'u', '0', '0', hexDigit ((c.toNat / 16) % 16), hexDigit (c.toNat % 16)]
  else [c]

/-- JSON string escaping. -/
def escapeJsonText (s : String) : String :=
  String.mk (s.data.flatMap escapeJsonChar)

mutual
/-- Compact JSON serialization of a value, modelling
`serde_json::to_string`. -/
def serializeJson : JValue → String
  | .null => "null"
  | .jbool b => if b then "true" else "false"
  | .jnum n => toString n
  | .jstr s => "\"" ++ escapeJsonText s ++ "\""
  | .jarr elems => "[" ++ joinSep "," (serializeArr elems) ++ "]"
  | .jobj fields => "\x7b" ++ joinSep "," (serializeObj fields) ++ "\x7d"

/-- Serialized array elements. -/
def serializeArr : JArr → List String
  | .nil => []
  | .cons v tl => serializeJson v :: serializeArr tl

/-- Serialized object fields. -/
def serializeObj : JObj → List String
  | .nil => []
  | .cons k v tl =>
      ("\"" ++ escapeJsonText k ++ "\":" ++ serializeJson v) :: serializeObj tl
end

/-- main.rs `sanitize_query_result`, JSON branch, given the parsed value
(the claim applies when the input parses as JSON): truncate every nested
string value, then re-serialize. -/
def sanitize_query_result_json (max_len : Nat) (parsed : JValue) : String :=
  serializeJson (sanitizeJValue max_len parsed)

/-- main.rs `generate_final_answer` →
`generate_answer_chat_request`/`render_last_request_prompt` variable
assembly for a query result that parses as JSON: the `CYPHER_RESULT`
template variable receives the sanitized text, not the original. -/
def generate_final_answer_vars (question cypher_query : String)
    (parsedResult : JValue) : List (String × String) :=
  [("CYPHER_QUERY", cypher_query),
   ("CYPHER_RESULT",
     sanitize_query_result_json QUERY_RESULT_MAX_PROPERTY_LENGTH parsedResult),
   ("USER_QUESTION", question)]

mutual
theorem strLeaves_sanitize (n : Nat) (v : JValue) :
    strLeaves (sanitizeJValue n v) = (strLeaves v).map (truncStrFun n) := by
  cases v with
  | null => rfl
  | jbool b => rfl
  | jnum i => rfl
  | jstr s => simp [sanitizeJValue, strLeaves]
  | jarr elems =>
    simpa [sanitizeJValue, strLeaves] using strLeavesArr_sanitize n elems
  | jobj fields =>
    simpa [sanitizeJValue, strLeaves] using strLeavesObj_sanitize n fields

theorem strLeavesArr_sanitize (n : Nat) (l : JArr) :
    strLeavesArr (sanitizeJArr n l) = (strLeavesArr l).map (truncStrFun n) := by
  cases l with
  | nil => rfl
  | cons v tl =>
    simp [sanitizeJArr, strLeavesArr, strLeaves_sanitize n v,
      strLeavesArr_sanitize n tl]

theorem strLeavesObj_sanitize (n : Nat) (l : JObj) :
    strLeavesObj (sanitizeJObj n l) = (strLeavesObj l).map (truncStrFun n) := by
  cases l with
  | nil => rfl
  | cons k v tl =>
    simp [sanitizeJObj, strLeavesObj, strLeaves_sanitize n v,
      strLeavesObj_sanitize n tl]
end

mutual
theorem jshape_sanitize (n : Nat) (v : JValue) :
    jshape (sanitizeJValue n v) = jshape v := by
  cases v with
  | null => rfl
  | jbool b => rfl
  | jnum i => rfl
  | jstr s => rfl
  | jarr elems => simp [sanitizeJValue, jshape, jshapeArr_sanitize n elems]
  | jobj fields => simp [sanitizeJValue, jshape, jshapeObj_sanitize n fields]

theorem jshapeArr_sanitize (n : Nat) (l : JArr) :
    jshapeArr (sanitizeJArr n l) = jshapeArr l := by
  cases l with
  | nil => rfl
  | cons v tl =>
    simp [sanitizeJArr, jshapeArr, jshape_sanitize n v, jshapeArr_sanitize n tl]

theorem jshapeObj_sanitize (n : Nat) (l : JObj) :
    jshapeObj (sanitizeJObj n l) = jshapeObj l := by
  cases l with
  | nil => rfl
  | cons k v tl =>
    simp [sanitizeJObj, jshapeObj, jshape_sanitize n v, jshapeObj_sanitize n tl]
end

theorem truncStrFun_length (n : Nat) (s : String) :
    (truncStrFun n s).length ≤ n + 3 := by
  by_cases h : s.length > n
  · have h3 : ("..." : String).length = 3 := rfl
    have h1 : (takeChars n s ++ "...").length = (takeChars n s).length + 3 := by
      rw [String.length_append, h3]
    have e1 : (takeChars n s).length = (s.data.take n).length := rfl
    have h2 : (takeChars n s).length ≤ n := by
      rw [e1, List.length_take]
      exact min_le_left n _
    simp only [truncStrFun, if_pos h, h1]
    omega
  · simp only [truncStrFun, if_neg h]
    omega

theorem truncStrFun_short (n : Nat) (s : String) (h : s.length ≤ n) :
    truncStrFun n s = s := by
  have hng : ¬(s.length > n) := Nat.not_lt.mpr h
  simp only [truncStrFun, if_neg hng]

/-- C10: before answer synthesis, a query result that parses as JSON is
sanitized — every string value at any nesting depth with more than
`QUERY_RESULT_MAX_PROPERTY_LENGTH = 100` characters is replaced by its
first 100 characters followed by `"..."` (so every sanitized string value
has at most 103 characters), strings of at most 100 characters and the
non-string skeleton are unchanged — and the `CYPHER_RESULT` variable of
the answer prompt receives the sanitized serialization, not the original
text. -/
theorem claim_C10 (v : JValue) :
    strLeaves (sanitizeJValue QUERY_RESULT_MAX_PROPERTY_LENGTH v)
      = (strLeaves v).map (truncStrFun QUERY_RESULT_MAX_PROPERTY_LENGTH) ∧
    (∀ s ∈ strLeaves v, s.length ≤ QUERY_RESULT_MAX_PROPERTY_LENGTH →
      truncStrFun QUERY_RESULT_MAX_PROPERTY_LENGTH s = s) ∧
    jshape (sanitizeJValue QUERY_RESULT_MAX_PROPERTY_LENGTH v) = jshape v ∧
    (∀ s ∈ strLeaves (sanitizeJValue QUERY_RESULT_MAX_PROPERTY_LENGTH v),
      s.length ≤ QUERY_RESULT_MAX_PROPERTY_LENGTH + 3) ∧
    (∀ question cypher_query,
      (generate_final_answer_vars question cypher_query v).lookup
          "CYPHER_RESULT"
        = some (serializeJson
            (sanitizeJValue QUERY_RESULT_MAX_PROPERTY_LENGTH v))) := by
  refine ⟨strLeaves_sanitize _ v, fun s _ h => truncStrFun_short _ s h,
    jshape_sanitize _ v, ?_, fun question cypher_query => rfl⟩
  intro s hs
  rw [strLeaves_sanitize] at hs
  obtain ⟨l, _, rfl⟩ := List.mem_map.mp hs
  exact truncStrFun_length _ l

/-- Concrete 101-character string for the C10 witness. -/
def longStringW : String := String.mk (List.replicate 101 'x')

/-- Concrete nested JSON value for the C10 witness. -/
def jW : JValue :=
  .jobj (.cons "a" (.jstr longStringW)
    (.cons "b" (.jarr (.cons (.jnum 7) (.cons (.jstr "short") .nil))) .nil))

/-- C10 witness: the sanitizer's leaf map, the length bound at the
truncated leaf, and the prompt-variable equation, at a concrete nested
value containing a 101-character string. -/
theorem claim_C10_witness :
    strLeaves (sanitizeJValue QUERY_RESULT_MAX_PROPERTY_LENGTH jW)
      = (strLeaves jW).map (truncStrFun QUERY_RESULT_MAX_PROPERTY_LENGTH) ∧
    (takeChars 100 longStringW ++ "...").length
      ≤ QUERY_RESULT_MAX_PROPERTY_LENGTH + 3 ∧
    (generate_final_answer_vars "q" "MATCH (n) RETURN n" jW).lookup
        "CYPHER_RESULT"
      = some (serializeJson
          (sanitizeJValue QUERY_RESULT_MAX_PROPERTY_LENGTH jW)) :=
  ⟨(claim_C10 jW).1,
   (claim_C10 jW).2.2.2.1 (takeChars 100 longStringW ++ "...") (by decide),
   (claim_C10 jW).2.2.2.2 "q" "MATCH (n) RETURN n"⟩

/-! ## Pipeline orchestrator (main.rs `process_text_to_cypher_request`)

The pipeline's external effects are oracle inputs: the schema cache entry,
the discovery outcome, the successive `execute_chat` outcomes, the
successive query-execution outcomes and the answer stream.  Every SSE send
is assumed to succeed (no client disconnect); events are collected in
emission order. -/

/-- main.rs `Progress`. -/
inductive Progress where
  | Status (s : String)
  | Schema (s : String)
  | CypherQuery (s : String)
  | CypherResult (s : String)
  | ModelOutputChunk (s : String)
  | Result (s : String)
  | Error (s : String)
deriving DecidableEq, Repr

/-- Outcome of one `execute_chat` provider call: `.ok` carries
`content_text_into_string()` (`"NO ANSWER"` models an absent text),
`.fail` a provider error. -/
inductive ChatOutcome where
  | ok (response : String)
  | fail (err : String)
deriving Repr

/-- Outcome of one query execution: `.ok` carries the returned records,
`.fail` the database error text. -/
inductive ExecOutcome where
  | ok (records : List (List FValue))
  | fail (err : String)

/-- Outcome of the answer `exec_chat_stream` call. -/
inductive StreamOutcome where
  | ok (chunks : List String)
  | fail (err : String)
deriving Repr

/-- Oracle environment of one request. -/
structure PipelineEnv where
  graph_name : String
  model : String
  adapterKind : String
  cypher_only : Bool
  cachedSchema : Option String
  discovery : Except Unit String
  chatOutcomes : List ChatOutcome
  execOutcomes : List ExecOutcome
  streamOutcome : StreamOutcome

/-- The `i`-th provider-call outcome. -/
def chatAt (env : PipelineEnv) (i : Nat) : ChatOutcome :=
  env.chatOutcomes.getD i (.fail "no response")

/-- The `i`-th execution outcome. -/
def execAt (env : PipelineEnv) (i : Nat) : ExecOutcome :=
  env.execOutcomes.getD i (.fail "no database")

/-- main.rs `execute_chat`: a failed provider call sends an `Error` event
and returns the string `"NO ANSWER"`. -/
def run_execute_chat (o : ChatOutcome) : String × List Progress :=
  match o with
  | .ok s => (s, [])
  | .fail e => ("NO ANSWER", [.Error ("Chat request failed: " ++ e)])

/-- main.rs `validate_and_log_query`: an invalid query sends an `Error`
event listing the validation errors and yields nothing. -/
def validate_and_log_query (query : String) : Option String × List Progress :=
  if (CypherValidator.validate query).is_valid then (some query, [])
  else
    (none, [.Error ("Query validation errors: "
      ++ joinSep "; " (CypherValidator.validate query).errors)])

/-- main.rs `generate_cypher_query` (the orchestrator's, lines 1228-1285):
one provider call; an empty/sentinel response is a terminal `Error`; an
invalid cleaned query triggers one regeneration with validation feedback;
if the retry also fails (or is empty), the pipeline continues with the
original cleaned query after a warning `Status`.  Returns the query (when
any), the number of provider calls consumed, and the emitted events. -/
def main_generate_cypher_query (env : PipelineEnv) (chatBase : Nat) :
    Option String × Nat × List Progress :=
  let e0 : List Progress := [.Status "Generating Cypher query using schema ..."]
  let r1 := run_execute_chat (chatAt env chatBase)
  if rustTrim r1.1 = "" ∨ rustTrim r1.1 = "NO ANSWER" then
    (none, 1, e0 ++ r1.2 ++ [.Error "No valid query was generated"])
  else
    let clean_query := cleanQuery r1.1
    let v1 := validate_and_log_query clean_query
    match v1.1 with
    | some _ =>
        (some clean_query, 1, e0 ++ r1.2 ++ v1.2 ++ [.CypherQuery clean_query])
    | none =>
      let e3 : List Progress :=
        [.Status "Query validation failed, attempting to regenerate..."]
      let r2 := run_execute_chat (chatAt env (chatBase + 1))
      if rustTrim r2.1 ≠ "" ∧ rustTrim r2.1 ≠ "NO ANSWER" then
        let v2 := validate_and_log_query (cleanQuery r2.1)
        match v2.1 with
        | some validated =>
            (some validated, 2,
              e0 ++ r1.2 ++ v1.2 ++ e3 ++ r2.2 ++ v2.2 ++ [.CypherQuery validated])
        | none =>
            (some clean_query, 2,
              e0 ++ r1.2 ++ v1.2 ++ e3 ++ r2.2 ++ v2.2 ++
                [.Status "Warning: Query validation issues detected",
                 .CypherQuery clean_query])
      else
        (some clean_query, 2,
          e0 ++ r1.2 ++ v1.2 ++ e3 ++ r2.2 ++
            [.Status "Warning: Query validation issues detected",
             .CypherQuery clean_query])

/-- main.rs `execute_cypher_query` (with `execute_query` inside): a
`Status`, then on success the formatted records as a `CypherResult`; on
failure `execute_query` sends one `Error` and the caller wraps and sends
the message again as a second `Error`. -/
def main_execute_cypher_query (env : PipelineEnv) (execBase : Nat) :
    Option String × Nat × List Progress :=
  let e0 : List Progress := [.Status "Executing Cypher query..."]
  match execAt env execBase with
  | .ok records =>
    let result := format_query_records records
    (some result, 1, e0 ++ [.CypherResult result])
  | .fail err =>
    let error_msg := "Query execution failed: " ++ err
    (none, 1,
      e0 ++ [.Error error_msg, .Error ("Query execution failed: " ++ error_msg)])

/-- main.rs `attempt_query_self_healing`: one provider call with error
feedback; an empty/sentinel or invalid retry yields nothing (events from
the chat call and the validation still go out), a valid retry is announced
as `CypherQuery ("Fixed: " ++ query)`. -/
def main_attempt_query_self_healing (env : PipelineEnv) (chatBase : Nat) :
    Option String × Nat × List Progress :=
  let r1 := run_execute_chat (chatAt env chatBase)
  if rustTrim r1.1 = "" ∨ rustTrim r1.1 = "NO ANSWER" then
    (none, 1, r1.2)
  else
    let v1 := validate_and_log_query (cleanQuery r1.1)
    match v1.1 with
    | some validated =>
        (some validated, 1, r1.2 ++ v1.2 ++ [.CypherQuery ("Fixed: " ++ validated)])
    | none => (none, 1, r1.2 ++ v1.2)

/-- main.rs `generate_final_answer` with `execute_chat_stream` /
`process_chat_stream`: a `Status`, then either a terminal `Error` (stream
request failed) or the chunks as `ModelOutputChunk` events followed by one
`Result` carrying their concatenation. -/
def main_generate_final_answer (env : PipelineEnv) : List Progress :=
  let e0 : List Progress :=
    [.Status "Generating answer from chat history and Cypher output using AI model..."]
  match env.streamOutcome with
  | .fail e => e0 ++ [.Error ("Chat request failed: " ++ e)]
  | .ok chunks =>
      e0 ++ chunks.map Progress.ModelOutputChunk ++ [.Result (String.join chunks)]

/-- main.rs `get_or_discover_schema`: cache hit, or discovery with a
`Status`; a serialization failure sends an `Error` and yields nothing,
otherwise the `Schema` event goes out. -/
def main_get_or_discover_schema (env : PipelineEnv) :
    Option String × List Progress :=
  match env.cachedSchema with
  | some schema => (some schema, [.Schema schema])
  | none =>
    match env.discovery with
    | .error _ =>
        (none, [.Status ("Discovering schema for graph: " ++ env.graph_name),
                .Error "Failed to serialize schema"])
    | .ok json =>
        (some json, [.Status ("Discovering schema for graph: " ++ env.graph_name),
                     .Schema json])

/-- One run's observables: the emitted events and how often the provider,
the query execution and the answer synthesis were invoked. -/
structure RunOut where
  events : List Progress
  chatCalls : Nat
  execCalls : Nat
  answerCalls : Nat
deriving DecidableEq, Repr

/-- main.rs `process_text_to_cypher_request`: status, schema resolution,
query synthesis (with its internal validation retry), the query-only
short-circuit, execution with one self-healing retry, then answer
synthesis. -/
def process_text_to_cypher_request (env : PipelineEnv) : RunOut :=
  let e0 : List Progress :=
    [.Status ("Processing query for graph: " ++ env.graph_name
      ++ " using model: " ++ env.model ++ " (" ++ env.adapterKind ++ ")")]
  let sc := main_get_or_discover_schema env
  match sc.1 with
  | none => ⟨e0 ++ sc.2 ++ [.Error "Failed to discover schema"], 0, 0, 0⟩
  | some _ =>
    let gen := main_generate_cypher_query env 0
    match gen.1 with
    | none => ⟨e0 ++ sc.2 ++ gen.2.2, gen.2.1, 0, 0⟩
    | some initial_query =>
      if env.cypher_only then
        ⟨e0 ++ sc.2 ++ gen.2.2 ++ [.Result initial_query], gen.2.1, 0, 0⟩
      else
        let ex1 := main_execute_cypher_query env 0
        match ex1.1 with
        | some _ =>
            ⟨e0 ++ sc.2 ++ gen.2.2 ++ ex1.2.2 ++ main_generate_final_answer env,
              gen.2.1, ex1.2.1, 1⟩
        | none =>
          let e4 : List Progress :=
            [.Status "Query failed, attempting self-healing..."]
          let heal := main_attempt_query_self_healing env gen.2.1
          match heal.1 with
          | none =>
              ⟨e0 ++ sc.2 ++ gen.2.2 ++ ex1.2.2 ++ e4 ++ heal.2.2,
                gen.2.1 + heal.2.1, ex1.2.1, 0⟩
          | some _ =>
            let ex2 := main_execute_cypher_query env ex1.2.1
            match ex2.1 with
            | some _ =>
                ⟨e0 ++ sc.2 ++ gen.2.2 ++ ex1.2.2 ++ e4 ++ heal.2.2 ++ ex2.2.2 ++
                    [.Status "Self-healing successful"] ++
                    main_generate_final_answer env,
                  gen.2.1 + heal.2.1, ex1.2.1 + ex2.2.1, 1⟩
            | none =>
                ⟨e0 ++ sc.2 ++ gen.2.2 ++ ex1.2.2 ++ e4 ++ heal.2.2 ++ ex2.2.2 ++
                    [.Error "Query execution failed even after self-healing attempt"],
                  gen.2.1 + heal.2.1, ex1.2.1 + ex2.2.1, 0⟩

/-! ## Streaming pipeline (streaming.rs `process_text_to_cypher_stream`) -/

/-- Oracle environment of one streaming (serverless) request. -/
structure StreamEnv where
  cypher_only : Bool
  discovery : Except String String
  chatCall : Except String (Option String)
  execRecords : Except String (List (List FValue))
  answerText : Except String (Option String)

/-- One streaming run's observables. -/
structure StreamRunOut where
  events : List Progress
  execCalled : Bool
  answerCalled : Bool
deriving DecidableEq, Repr

/-- streaming.rs `process_text_to_cypher_stream`: a linear pipeline over
the core.rs functions; in query-only mode schema discovery is skipped
(schema `"\x7b\x7d"`) and the stream ends right after `CypherQuery`,
never reaching execution or answer synthesis. -/
def process_text_to_cypher_stream (env : StreamEnv) : StreamRunOut :=
  let e0 : List Progress := [.Status "Initializing AI client..."]
  let s1 : Except String String × List Progress :=
    if env.cypher_only then
      (Except.ok "\x7b\x7d",
        [Progress.Status "Skipping schema discovery (cypher_only mode)"])
    else
      match env.discovery with
      | .ok sc =>
          (Except.ok sc,
            [Progress.Status "Connecting to database...",
             Progress.Status "Discovering graph schema...",
             Progress.Schema sc])
      | .error e =>
          (Except.error e,
            [Progress.Status "Connecting to database...",
             Progress.Status "Discovering graph schema...",
             Progress.Error ("Failed to discover schema: " ++ e)])
  match s1.1 with
  | .error _ => ⟨e0 ++ s1.2, false, false⟩
  | .ok _ =>
    let e2 : List Progress := [.Status "Generating Cypher query with AI..."]
    match core_generate_cypher_query env.chatCall with
    | .error e =>
        ⟨e0 ++ s1.2 ++ e2 ++ [.Error ("Failed to generate query: " ++ e)],
          false, false⟩
    | .ok q =>
      if env.cypher_only then ⟨e0 ++ s1.2 ++ e2 ++ [.CypherQuery q], false, false⟩
      else
        let e4 : List Progress := [.Status "Executing Cypher query on database..."]
        match env.execRecords with
        | .error e =>
            ⟨e0 ++ s1.2 ++ e2 ++ [.CypherQuery q] ++ e4 ++
               [.Error ("Query execution failed: " ++ e)], true, false⟩
        | .ok records =>
          let e5 : List Progress := [.CypherResult (format_query_records records)]
          let e6 : List Progress := [.Status "Generating natural language answer..."]
          match env.answerText with
          | .error e =>
              ⟨e0 ++ s1.2 ++ e2 ++ [.CypherQuery q] ++ e4 ++ e5 ++ e6 ++
                 [.Error ("Failed to generate answer: " ++ e)], true, true⟩
          | .ok t =>
              ⟨e0 ++ s1.2 ++ e2 ++ [.CypherQuery q] ++ e4 ++ e5 ++ e6 ++
                 [.Result (t.getD "Unable to generate answer")], true, true⟩

/-- Event classifiers. -/
def isResultEv : Progress → Bool
  | .Result _ => true
  | _ => false

/-- True exactly on `Error` events. -/
def isErrorEv : Progress → Bool
  | .Error _ => true
  | _ => false

/-- True exactly on terminal (`Result` or `Error`) events. -/
def isTerminalEv (p : Progress) : Bool := isResultEv p || isErrorEv p

/-- True exactly on `CypherResult` events. -/
def isCypherResultEv : Progress → Bool
  | .CypherResult _ => true
  | _ => false

/-- True exactly on `ModelOutputChunk` events. -/
def isChunkEv : Progress → Bool
  | .ModelOutputChunk _ => true
  | _ => false

/-- True exactly on `CypherQuery` events. -/
def isCypherQueryEv : Progress → Bool
  | .CypherQuery _ => true
  | _ => false

/-! ## Stage event/count lemmas -/

theorem countP_run_execute_chat (p : Progress → Bool) (o : ChatOutcome)
    (hE : ∀ t, p (.Error t) = false) :
    List.countP p (run_execute_chat o).2 = 0 := by
  cases o <;> simp [run_execute_chat, List.countP_cons, hE]

theorem countP_validate_and_log (p : Progress → Bool) (q : String)
    (hE : ∀ t, p (.Error t) = false) :
    List.countP p (validate_and_log_query q).2 = 0 := by
  unfold validate_and_log_query
  split <;> simp [List.countP_cons, hE]

theorem countP_gen (p : Progress → Bool) (env : PipelineEnv) (b : Nat)
    (hS : ∀ t, p (.Status t) = false)
    (hE : ∀ t, p (.Error t) = false)
    (hQ : ∀ t, p (.CypherQuery t) = false) :
    List.countP p (main_generate_cypher_query env b).2.2 = 0 := by
  have h1 := countP_run_execute_chat p (chatAt env b) hE
  have h2 := countP_run_execute_chat p (chatAt env (b + 1)) hE
  have h3 := countP_validate_and_log p
    (cleanQuery (run_execute_chat (chatAt env b)).1) hE
  have h4 := countP_validate_and_log p
    (cleanQuery (run_execute_chat (chatAt env (b + 1))).1) hE
  simp only [main_generate_cypher_query]
  split
  · simp [List.countP_append, List.countP_cons, hS, hE, h1]
  · split
    · simp [List.countP_append, List.countP_cons, hS, hQ, h1, h3]
    · split
      · split
        · simp [List.countP_append, List.countP_cons, hS, hQ, h1, h2, h3, h4]
        · simp [List.countP_append, List.countP_cons, hS, hQ, h1, h2, h3, h4]
      · simp [List.countP_append, List.countP_cons, hS, hQ, h1, h2, h3]

theorem countP_exec (p : Progress → Bool) (env : PipelineEnv) (i : Nat)
    (hS : ∀ t, p (.Status t) = false)
    (hE : ∀ t, p (.Error t) = false)
    (hR : ∀ t, p (.CypherResult t) = false) :
    List.countP p (main_execute_cypher_query env i).2.2 = 0 := by
  simp only [main_execute_cypher_query]
  split <;> simp [List.countP_append, List.countP_cons, hS, hE, hR]

theorem countP_heal (p : Progress → Bool) (env : PipelineEnv) (b : Nat)
    (hE : ∀ t, p (.Error t) = false)
    (hQ : ∀ t, p (.CypherQuery t) = false) :
    List.countP p (main_attempt_query_self_healing env b).2.2 = 0 := by
  have h1 := countP_run_execute_chat p (chatAt env b) hE
  have h3 := countP_validate_and_log p
    (cleanQuery (run_execute_chat (chatAt env b)).1) hE
  simp only [main_attempt_query_self_healing]
  split
  · exact h1
  · split
    · simp [List.countP_append, List.countP_cons, hQ, h1, h3]
    · simp [List.countP_append, List.countP_cons, h1, h3]

theorem countP_schema (p : Progress → Bool) (env : PipelineEnv)
    (hS : ∀ t, p (.Status t) = false)
    (hE : ∀ t, p (.Error t) = false)
    (hSch : ∀ t, p (.Schema t) = false) :
    List.countP p (main_get_or_discover_schema env).2 = 0 := by
  simp only [main_get_or_discover_schema]
  split
  · simp [List.countP_cons, hSch]
  · split <;> simp [List.countP_cons, hS, hE, hSch]

theorem countR_answer (env : PipelineEnv) :
    List.countP isResultEv (main_generate_final_answer env) ≤ 1 := by
  simp only [main_generate_final_answer]
  split
  · simp [List.countP_append, List.countP_cons, isResultEv]
  · simp [List.countP_append, List.countP_cons, List.countP_map, isResultEv,
      Function.comp, List.countP_false]

theorem gen_chatCalls (env : PipelineEnv) (b : Nat) :
    (main_generate_cypher_query env b).2.1 ≤ 2 := by
  simp only [main_generate_cypher_query]
  split
  · simp
  · split
    · simp
    · split
      · split <;> simp
      · simp

theorem heal_chatCalls (env : PipelineEnv) (b : Nat) :
    (main_attempt_query_self_healing env b).2.1 = 1 := by
  simp only [main_attempt_query_self_healing]
  split
  · simp
  · split <;> simp

theorem exec_calls (env : PipelineEnv) (i : Nat) :
    (main_execute_cypher_query env i).2.1 = 1 := by
  simp only [main_execute_cypher_query]
  split <;> simp

theorem append_two_singletons (E : List Progress) (a b : Progress) :
    E ++ [a, b] = (E ++ [a]) ++ [b] := by simp

/-- A successful query synthesis ends its event list with the
`CypherQuery` event announcing the returned query. -/
theorem gen_some_events (env : PipelineEnv) (b : Nat) (q : String) (n : Nat)
    (ev : List Progress)
    (h : main_generate_cypher_query env b = (some q, n, ev)) :
    ∃ pre, ev = pre ++ [.CypherQuery q] := by
  simp only [main_generate_cypher_query] at h
  split at h
  · injection h with h1 h23
    exact Option.noConfusion h1
  · split at h
    · injection h with h1 h23
      injection h23 with h2 h3
      injection h1 with h1
      subst h1
      exact ⟨_, h3.symm⟩
    · split at h
      · split at h
        · injection h with h1 h23
          injection h23 with h2 h3
          injection h1 with h1
          subst h1
          exact ⟨_, h3.symm⟩
        · injection h with h1 h23
          injection h23 with h2 h3
          injection h1 with h1
          subst h1
          rw [← h3, append_two_singletons]
          exact ⟨_, rfl⟩
      · injection h with h1 h23
        injection h23 with h2 h3
        injection h1 with h1
        subst h1
        rw [← h3, append_two_singletons]
        exact ⟨_, rfl⟩

set_option maxHeartbeats 1000000 in
/-- A failed query synthesis emits no `CypherQuery` event. -/
theorem gen_none_noCQ (env : PipelineEnv) (b : Nat) (n : Nat)
    (ev : List Progress)
    (h : main_generate_cypher_query env b = (none, n, ev)) :
    List.countP isCypherQueryEv ev = 0 := by
  have hchat := countP_run_execute_chat isCypherQueryEv (chatAt env b)
    (fun t => rfl)
  simp only [main_generate_cypher_query] at h
  split at h
  · injection h with h1 h23
    injection h23 with h2 h3
    rw [← h3]
    simp [List.countP_append, List.countP_cons, isCypherQueryEv, hchat]
  · split at h
    · injection h with h1 h23
      exact Option.noConfusion h1
    · split at h
      · split at h
        · injection h with h1 h23
          exact Option.noConfusion h1
        · injection h with h1 h23
          exact Option.noConfusion h1
      · injection h with h1 h23
        exact Option.noConfusion h1

/-! ## Claims about the orchestrator -/

/-- Oracle for the C1 counterexample: the provider call fails. -/
def envC1ce : PipelineEnv :=
  { graph_name := "g", model := "m", adapterKind := "OpenAI",
    cypher_only := false, cachedSchema := some "\x7b\x7d",
    discovery := .ok "\x7b\x7d",
    chatOutcomes := [.fail "connection refused"],
    execOutcomes := [], streamOutcome := .ok [] }

/-- C1 counterexample: when the provider call fails, `execute_chat` emits
an `Error` event and returns `"NO ANSWER"`, whereupon the caller emits a
second `Error` ("No valid query was generated") — two terminal events in
one request, refuting "at most one terminal event". -/
theorem claim_C1_counterexample :
    1 < List.countP isTerminalEv
        (process_text_to_cypher_request envC1ce).events ∧
    List.countP isErrorEv (process_text_to_cypher_request envC1ce).events
      = 2 := by
  exact ⟨by decide, by decide⟩

/-- C1 (amended): per request at most one `Result` event is emitted; but
`Error` events are not terminal in the implementation — provider failures,
validation failures and execution failures each emit `Error` events after
which the pipeline may continue (and may still end in a `Result`), so a
request can emit several `Error` events besides its `Result`. -/
theorem claim_C1_amended (env : PipelineEnv) :
    List.countP isResultEv (process_text_to_cypher_request env).events ≤ 1 := by
  have hS : ∀ t, isResultEv (.Status t) = false := fun t => rfl
  have hE : ∀ t, isResultEv (.Error t) = false := fun t => rfl
  have hQ : ∀ t, isResultEv (.CypherQuery t) = false := fun t => rfl
  have hSch : ∀ t, isResultEv (.Schema t) = false := fun t => rfl
  have hR : ∀ t, isResultEv (.CypherResult t) = false := fun t => rfl
  have hsc := countP_schema isResultEv env hS hE hSch
  have hgen := countP_gen isResultEv env 0 hS hE hQ
  have hex0 := countP_exec isResultEv env 0 hS hE hR
  have hex1 := countP_exec isResultEv env
    (main_execute_cypher_query env 0).2.1 hS hE hR
  have hheal := countP_heal isResultEv env
    (main_generate_cypher_query env 0).2.1 hE hQ
  have hans := countR_answer env
  simp only [process_text_to_cypher_request]
  split
  · simp [List.countP_append, List.countP_cons, isResultEv, hsc]
  · split
    · simp [List.countP_append, List.countP_cons, isResultEv, hsc, hgen]
    · split
      · simp [List.countP_append, List.countP_cons, isResultEv, hsc, hgen]
      · split
        · simpa [List.countP_append, List.countP_cons, isResultEv, hsc, hgen,
            hex0] using hans
        · split
          · simp [List.countP_append, List.countP_cons, isResultEv, hsc, hgen,
              hex0, hheal]
          · split
            · simpa [List.countP_append, List.countP_cons, isResultEv, hsc,
                hgen, hex0, hex1, hheal] using hans
            · simp [List.countP_append, List.countP_cons, isResultEv, hsc,
                hgen, hex0, hex1, hheal]

/-- Oracle for the C2 counterexample: both synthesized queries fail
validation, the first execution fails, the self-healing synthesis
succeeds, the second execution succeeds. -/
def envC2ce : PipelineEnv :=
  { graph_name := "g", model := "m", adapterKind := "OpenAI",
    cypher_only := false, cachedSchema := some "\x7b\x7d",
    discovery := .ok "\x7b\x7d",
    chatOutcomes := [.ok "MATCH (n", .ok "MATCH (n", .ok "MATCH (n) RETURN n"],
    execOutcomes := [.fail "boom", .ok []],
    streamOutcome := .ok ["the answer"] }

/-- C2 counterexample: a request whose initial query fails validation
(one regeneration call inside query synthesis) and whose first execution
fails (one self-healing call) makes three provider query-synthesis calls,
refuting "at most twice". -/
theorem claim_C2_counterexample :
    (process_text_to_cypher_request envC2ce).chatCalls = 3 ∧
    (process_text_to_cypher_request envC2ce).execCalls = 2 := by
  exact ⟨by decide, by decide⟩

/-- C2 (amended): per request the orchestrator makes at most three query
synthesis calls (the initial one, at most one validation-feedback
regeneration inside `generate_cypher_query`, and at most one self-healing
regeneration after an execution failure) and at most two query executions;
neither retry is recursive. -/
theorem claim_C2_amended (env : PipelineEnv) :
    (process_text_to_cypher_request env).chatCalls ≤ 3 ∧
    (process_text_to_cypher_request env).execCalls ≤ 2 := by
  have hg := gen_chatCalls env 0
  have hh := heal_chatCalls env (main_generate_cypher_query env 0).2.1
  have he0 := exec_calls env 0
  have he1 := exec_calls env (main_execute_cypher_query env 0).2.1
  simp only [process_text_to_cypher_request]
  split
  · exact ⟨by dsimp only; omega, by dsimp only; omega⟩
  · split
    · exact ⟨by dsimp only; omega, by dsimp only; omega⟩
    · split
      · exact ⟨by dsimp only; omega, by dsimp only; omega⟩
      · split
        · exact ⟨by dsimp only; omega, by dsimp only; omega⟩
        · split
          · exact ⟨by dsimp only; omega, by dsimp only; omega⟩
          · split
            · exact ⟨by dsimp only; omega, by dsimp only; omega⟩
            · exact ⟨by dsimp only; omega, by dsimp only; omega⟩

/-- C3: in query-only mode (`cypher_only = true`) the orchestrator never
invokes query execution or answer synthesis, emits no `CypherResult` and
no `ModelOutputChunk` event, and whenever a `CypherQuery` event was
emitted the event stream is exactly a prefix followed by that
`CypherQuery` and the terminal `Result` carrying the same query; the
streaming (serverless) pipeline likewise stops directly after
`CypherQuery` without calling execution or answer synthesis. -/
theorem events_split_helper (A B : List Progress) (q : String) :
    A ++ (B ++ [Progress.CypherQuery q]) ++ [Progress.Result q]
      = (A ++ B) ++ [Progress.CypherQuery q, Progress.Result q] := by
  simp

theorem claim_C3 (env : PipelineEnv) (senv : StreamEnv)
    (h : env.cypher_only = true) (hs : senv.cypher_only = true) :
    (process_text_to_cypher_request env).execCalls = 0 ∧
    (process_text_to_cypher_request env).answerCalls = 0 ∧
    List.countP isCypherResultEv
      (process_text_to_cypher_request env).events = 0 ∧
    List.countP isChunkEv (process_text_to_cypher_request env).events = 0 ∧
    (List.countP isCypherQueryEv
        (process_text_to_cypher_request env).events ≠ 0 →
      ∃ pre q, (process_text_to_cypher_request env).events
        = pre ++ [.CypherQuery q, .Result q]) ∧
    (process_text_to_cypher_stream senv).execCalled = false ∧
    (process_text_to_cypher_stream senv).answerCalled = false ∧
    (List.countP isCypherQueryEv
        (process_text_to_cypher_stream senv).events ≠ 0 →
      ∃ pre q, (process_text_to_cypher_stream senv).events
        = pre ++ [.CypherQuery q]) := by
  have hscR := countP_schema isCypherResultEv env (fun t => rfl) (fun t => rfl)
    (fun t => rfl)
  have hscC := countP_schema isChunkEv env (fun t => rfl) (fun t => rfl)
    (fun t => rfl)
  have hscQ := countP_schema isCypherQueryEv env (fun t => rfl) (fun t => rfl)
    (fun t => rfl)
  have hgenR := countP_gen isCypherResultEv env 0 (fun t => rfl) (fun t => rfl)
    (fun t => rfl)
  have hgenC := countP_gen isChunkEv env 0 (fun t => rfl) (fun t => rfl)
    (fun t => rfl)
  have hstream : (process_text_to_cypher_stream senv).execCalled = false ∧
      (process_text_to_cypher_stream senv).answerCalled = false ∧
      (List.countP isCypherQueryEv
          (process_text_to_cypher_stream senv).events ≠ 0 →
        ∃ pre q, (process_text_to_cypher_stream senv).events
          = pre ++ [.CypherQuery q]) := by
    simp only [process_text_to_cypher_stream, hs, if_true]
    split
    · refine ⟨rfl, rfl, fun hne => absurd ?_ hne⟩
      simp [List.countP_append, List.countP_cons, isCypherQueryEv]
    · refine ⟨rfl, rfl, fun _ => ⟨_, _, rfl⟩⟩
  have hmain : (process_text_to_cypher_request env).execCalls = 0 ∧
      (process_text_to_cypher_request env).answerCalls = 0 ∧
      List.countP isCypherResultEv
        (process_text_to_cypher_request env).events = 0 ∧
      List.countP isChunkEv (process_text_to_cypher_request env).events = 0 ∧
      (List.countP isCypherQueryEv
          (process_text_to_cypher_request env).events ≠ 0 →
        ∃ pre q, (process_text_to_cypher_request env).events
          = pre ++ [.CypherQuery q, .Result q]) := by
    simp only [process_text_to_cypher_request, h, if_true]
    split
    · refine ⟨rfl, rfl, ?_, ?_, fun hne => absurd ?_ hne⟩
      · simp [List.countP_append, List.countP_cons, isCypherResultEv, hscR]
      · simp [List.countP_append, List.countP_cons, isChunkEv, hscC]
      · simp [List.countP_append, List.countP_cons, isCypherQueryEv, hscQ]
    · split
      · rcases hfull : main_generate_cypher_query env 0 with ⟨o, n, ev⟩
        rename_i heq
        rw [hfull] at heq
        simp only at heq
        subst heq
        have hevR : List.countP isCypherResultEv ev = 0 := by
          rw [hfull] at hgenR; exact hgenR
        have hevC : List.countP isChunkEv ev = 0 := by
          rw [hfull] at hgenC; exact hgenC
        have hevQ : List.countP isCypherQueryEv ev = 0 :=
          gen_none_noCQ env 0 n ev hfull
        refine ⟨rfl, rfl, ?_, ?_, fun hne => absurd ?_ hne⟩
        · simp [List.countP_append, List.countP_cons, isCypherResultEv, hscR,
            hevR]
        · simp [List.countP_append, List.countP_cons, isChunkEv, hscC, hevC]
        · simp [List.countP_append, List.countP_cons, isCypherQueryEv, hscQ,
            hevQ]
      · rcases hfull : main_generate_cypher_query env 0 with ⟨o, n, ev⟩
        rename_i initial_query heq
        rw [hfull] at heq
        simp only at heq
        subst heq
        have hevR : List.countP isCypherResultEv ev = 0 := by
          rw [hfull] at hgenR; exact hgenR
        have hevC : List.countP isChunkEv ev = 0 := by
          rw [hfull] at hgenC; exact hgenC
        obtain ⟨pre, hpre⟩ := gen_some_events env 0 initial_query n ev hfull
        refine ⟨rfl, rfl, ?_, ?_, fun _ => ?_⟩
        · simp [List.countP_append, List.countP_cons, isCypherResultEv, hscR,
            hevR]
        · simp [List.countP_append, List.countP_cons, isChunkEv, hscC, hevC]
        · refine ⟨([Progress.Status ("Processing query for graph: "
              ++ env.graph_name ++ " using model: " ++ env.model ++ " ("
              ++ env.adapterKind ++ ")")]
              ++ (main_get_or_discover_schema env).2) ++ pre,
            initial_query, ?_⟩
          dsimp only
          rw [hpre]
          exact events_split_helper _ pre initial_query
  exact ⟨hmain.1, hmain.2.1, hmain.2.2.1, hmain.2.2.2.1, hmain.2.2.2.2,
    hstream.1, hstream.2.1, hstream.2.2⟩

/-- Concrete query-only environment for the C3 witness. -/
def envC3w : PipelineEnv :=
  { graph_name := "g", model := "m", adapterKind := "OpenAI",
    cypher_only := true, cachedSchema := some "\x7b\x7d",
    discovery := .ok "\x7b\x7d",
    chatOutcomes := [.ok "MATCH (n) RETURN n"],
    execOutcomes := [], streamOutcome := .ok [] }

/-- Concrete query-only streaming environment for the C3 witness. -/
def senvC3w : StreamEnv :=
  { cypher_only := true, discovery := .ok "\x7b\x7d",
    chatCall := .ok (some "MATCH (n) RETURN n"),
    execRecords := .ok [], answerText := .ok none }

/-- C3 witness: the query-only guarantees at concrete environments. -/
theorem claim_C3_witness :
    (process_text_to_cypher_request envC3w).execCalls = 0 ∧
    (process_text_to_cypher_request envC3w).answerCalls = 0 ∧
    (process_text_to_cypher_stream senvC3w).execCalled = false :=
  ⟨(claim_C3 envC3w senvC3w rfl rfl).1,
   (claim_C3 envC3w senvC3w rfl rfl).2.1,
   (claim_C3 envC3w senvC3w rfl rfl).2.2.2.2.2.1⟩

end TextToCypher
